import Mathlib

/- Verification of the polymarket market-maker trading engine against its
   specification.  The Python sources under src/ are shallowly embedded:
   floats are idealised as rationals, stateful methods become explicit
   state-passing functions, fallible calls return Except/Option, and the
   external exchange client is a parameter supplying call outcomes. -/

namespace PolymarketMM

/-! Numeric helpers, from src/utils/math_utils.py. -/

/-- round_down(value, decimals) = floor(value * 10^d) / 10^d. -/
def round_down (value : ℚ) (decimals : ℕ) : ℚ :=
  ⌊value * 10 ^ decimals⌋ / 10 ^ decimals

/-- round_up(value, decimals) = ceil(value * 10^d) / 10^d. -/
def round_up (value : ℚ) (decimals : ℕ) : ℚ :=
  ⌈value * 10 ^ decimals⌉ / 10 ^ decimals

/-- Round to the nearest integer, ties to even: the rounding used by the
    built-in round on the idealised (exact rational) values. -/
def roundHalfEven (x : ℚ) : ℤ :=
  if x - ⌊x⌋ < 1 / 2 then ⌊x⌋
  else if 1 / 2 < x - ⌊x⌋ then ⌊x⌋ + 1
  else if ⌊x⌋ % 2 = 0 then ⌊x⌋ else ⌊x⌋ + 1

/-- round(x, d): round to d decimal places, ties to even. -/
def pyRound (x : ℚ) (d : ℕ) : ℚ :=
  (roundHalfEven (x * 10 ^ d) : ℚ) / 10 ^ d

/-- calculate_mid_price(bid, ask). -/
def calculate_mid_price (bid ask : ℚ) : ℚ := (bid + ask) / 2

/-- calculate_spread(bid, ask). -/
def calculate_spread (bid ask : ℚ) : ℚ := |ask - bid|

/-- calculate_spread_pct(bid, ask): spread as a percentage of the mid price,
    0 when the mid is 0. -/
def calculate_spread_pct (bid ask : ℚ) : ℚ :=
  if calculate_mid_price bid ask = 0 then 0
  else calculate_spread bid ask / calculate_mid_price bid ask * 100

/-! Position manager, from src/trading/position_manager.py. -/

/-- A tracked position: size in human units, average entry price. -/
structure Position where
  size : ℚ
  avgPrice : ℚ
deriving DecidableEq, Repr

/-- PositionManager.update_position applied to one position record.
    BUY recomputes the size-weighted average entry price (falling back to the
    trade price when the new size is not positive) and adds to the size;
    SELL shrinks the size, clamped at 0, keeping the average while the
    position stays open and resetting it to 0 once fully closed.  Stored
    values are quantised: size rounded down to 2 decimals, average price
    rounded (ties to even) to 4 decimals. -/
def update_position (current : Position) (side : String) (size price : ℚ) : Position :=
  if side = "BUY" then
    { size := round_down (current.size + size) 2
      avgPrice := pyRound
        (if current.size + size > 0 then
          (current.size * current.avgPrice + size * price) / (current.size + size)
        else price) 4 }
  else
    { size := round_down (max 0 (current.size - size)) 2
      avgPrice := pyRound
        (if max 0 (current.size - size) > 0 then current.avgPrice else 0) 4 }

/-- The positions map of the global state; get_position defaults to the zero
    record for unknown tokens. -/
abbrev Positions := String → Position

def initialPositions : Positions := fun _ => { size := 0, avgPrice := 0 }

/-- One call to update_position: token, side, size, price. -/
structure TradeEvent where
  token : String
  side : String
  size : ℚ
  price : ℚ
deriving DecidableEq, Repr

/-- update_position acting on the positions map. -/
def apply_trade (ps : Positions) (t : TradeEvent) : Positions :=
  fun tok =>
    if tok = t.token then update_position (ps t.token) t.side t.size t.price
    else ps tok

/-- A sequence of update_position calls. -/
def apply_trades (ps : Positions) : List TradeEvent → Positions
  | [] => ps
  | t :: ts => apply_trades (apply_trade ps t) ts

/-! Merging, from src/trading/position_manager.py and src/bot/constants.py. -/

/-- MIN_MERGE_SIZE = 1.0. -/
def MIN_MERGE_SIZE : ℚ := 1

/-- The fields of a market record used by the merge logic. -/
structure Market where
  condition_id : String
  token1 : String
  token2 : String
deriving DecidableEq, Repr

/-- Linear scan of state.markets for the matching condition id. -/
def find_market (markets : List Market) (market_id : String) : Option Market :=
  markets.find? (fun m => m.condition_id == market_id)

/-- PositionManager.check_merge_opportunities: look the market up, reject
    empty token ids, and propose min of the two local sizes when it exceeds
    MIN_MERGE_SIZE. -/
def check_merge_opportunities (ps : Positions) (markets : List Market)
    (market_id : String) : Option (String × String × ℚ) :=
  match find_market markets market_id with
  | none => none
  | some market =>
    if market.token1 = "" ∨ market.token2 = "" then none
    else
      let amount_to_merge := min (ps market.token1).size (ps market.token2).size
      if amount_to_merge > MIN_MERGE_SIZE then
        some (market.token1, market.token2, amount_to_merge)
      else none

/-- External collaborators of merge_positions: whether a client handle is
    present, the on-chain base-unit amount returned by client.get_position
    for each token (none models a falsy fetch result), and the boolean
    outcome of client.merge_positions. -/
structure MergeEnv where
  hasClient : Bool
  onchain : String → Option ℚ
  mergeOk : Bool

/-- Observable outcome of PositionManager.merge_positions: its boolean
    return value, the base-unit amount passed to the exchange merge call if
    one was made, and the positions map afterwards. -/
structure MergeOutcome where
  success : Bool
  callAmount : Option ℚ
  positions : Positions

/-- PositionManager.merge_positions: compute the local candidate, abort if
    none; re-fetch both on-chain positions, abort if either is missing;
    recompute the amount as min of the two base-unit amounts, abort if below
    MIN_MERGE_SIZE in base units; call the exchange merge and, on success,
    apply two SELL position updates of amount/1e6 at price 0. -/
def merge_positions (env : MergeEnv) (ps : Positions) (markets : List Market)
    (market_id : String) : MergeOutcome :=
  match check_merge_opportunities ps markets market_id with
  | none => { success := false, callAmount := none, positions := ps }
  | some (token1, token2, _amount) =>
    if env.hasClient = false then
      { success := false, callAmount := none, positions := ps }
    else
      match env.onchain token1, env.onchain token2 with
      | some p1, some p2 =>
        let amount_to_merge := min p1 p2
        if amount_to_merge < MIN_MERGE_SIZE * 1000000 then
          { success := false, callAmount := none, positions := ps }
        else if env.mergeOk then
          { success := true
            callAmount := some amount_to_merge
            positions :=
              apply_trade
                (apply_trade ps
                  { token := token1, side := "SELL"
                    size := amount_to_merge / 1000000, price := 0 })
                { token := token2, side := "SELL"
                  size := amount_to_merge / 1000000, price := 0 } }
        else
          { success := false, callAmount := some amount_to_merge, positions := ps }
      | _, _ => { success := false, callAmount := none, positions := ps }

/-! Order manager, from src/trading/order_manager.py. -/

/-- One tracked resting order: aggregate size and price. -/
structure RestingOrder where
  size : ℚ
  price : ℚ
deriving DecidableEq, Repr

/-- The per-token order record: one buy and one sell slot. -/
structure TokenOrders where
  buy : RestingOrder
  sell : RestingOrder
deriving DecidableEq, Repr

/-- The side key used to index the per-token order record. -/
inductive OrderSide
  | buy
  | sell
deriving DecidableEq, Repr

def get_side (orders : TokenOrders) (side : OrderSide) : RestingOrder :=
  match side with
  | .buy => orders.buy
  | .sell => orders.sell

/-- OrderManager.min_price_diff = 0.005. -/
def min_price_diff : ℚ := 5 / 1000

/-- OrderManager.min_size_diff_pct = 0.10. -/
def min_size_diff_pct : ℚ := 1 / 10

/-- OrderManager.should_update_order: true when no order is resting on that
    side, or the price moved by more than min_price_diff, or (for a positive
    new size) the size moved by more than min_size_diff_pct of the new
    size. -/
def should_update_order (orders : TokenOrders) (side : OrderSide)
    (new_price new_size : ℚ) : Bool :=
  if (get_side orders side).size = 0 then true
  else if |(get_side orders side).price - new_price| > min_price_diff then true
  else if new_size > 0 ∧
      |(get_side orders side).size - new_size| > new_size * min_size_diff_pct then true
  else false

/-! Risk manager, from src/trading/risk_manager.py. -/

/-- The parameter-profile entries read by the stop-loss check, with the
    dictionary-get defaults -2.0 and 3.0. -/
structure RiskParams where
  stop_loss_threshold : Option ℚ
  spread_threshold : Option ℚ
deriving DecidableEq, Repr

/-- RiskManager.check_stop_loss: no trigger for a flat position or missing
    average; otherwise trigger when the PnL percentage is below the
    stop-loss threshold and the spread argument is at most the spread
    threshold, returning the current mid as exit price. -/
def check_stop_loss (position_size avg_price current_mid spread : ℚ)
    (params : RiskParams) : Bool × Option ℚ :=
  if position_size ≤ 0 ∨ avg_price ≤ 0 then (false, none)
  else
    if (current_mid - avg_price) / avg_price * 100 < params.stop_loss_threshold.getD (-2) ∧
        spread ≤ params.spread_threshold.getD 3 then
      (true, some current_mid)
    else (false, none)

/-- The stop-loss branch of TradingStrategy._handle_sell: skip when the
    average price is not positive; compute the mid and the spread argument
    (best_ask - best_bid) * 100 exactly as the caller does; run
    check_stop_loss; place the emergency sell at the best bid when the check
    triggers and the returned exit price is truthy (not none and not 0).
    Returns the price of the emergency sell order, if one is placed. -/
def handle_sell_stop (position_size avg_price best_bid best_ask : ℚ)
    (params : RiskParams) : Option ℚ :=
  if avg_price ≤ 0 then none
  else
    match check_stop_loss position_size avg_price ((best_bid + best_ask) / 2)
        ((best_ask - best_bid) * 100) params with
    | (true, some exit_price) => if exit_price = 0 then none else some best_bid
    | _ => none

/-- The market-data entries read by RiskManager.calculate_order_size, with
    the dictionary-get defaults: trade_size 100, max_size defaulting to
    trade_size, min_size 10. -/
structure SizeKnobs where
  trade_size : Option ℚ
  max_size : Option ℚ
  min_size : Option ℚ
deriving DecidableEq, Repr

/-- RiskManager.calculate_order_size: returns (buy_amount, sell_amount). -/
def calculate_order_size (position other_position : ℚ) (market : SizeKnobs) :
    ℚ × ℚ :=
  let trade_size := market.trade_size.getD 100
  let max_size := market.max_size.getD trade_size
  let min_size := market.min_size.getD 10
  let buy_amount : ℚ :=
    if position < max_size ∧ other_position < min_size then
      if max 0 (max_size - position) < min_size then 0
      else max 0 (max_size - position)
    else 0
  let sell_amount : ℚ := if position > 0 then position else 0
  (buy_amount, sell_amount)

/-- RiskManager.check_order_book_ratio: a zero ask-side depth passes
    unconditionally; otherwise fail when bid_sum / ask_sum is below the
    minimum ratio. -/
def check_order_book_ratio (bid_sum ask_sum : ℚ) (min_ratio : ℚ) : Bool :=
  if ask_sum = 0 then true
  else if bid_sum / ask_sum < min_ratio then false
  else true

/-! Retry wrapper, from src/utils/retry.py. -/

/-- Observable behaviour of one run of the retry_sync wrapper: the result
    (ok none models the implicit None return when the loop never runs, error
    models a re-raised exception), the number of invocations of the wrapped
    callable, and the sleeps performed, in order. -/
structure RetryResult (E A : Type) where
  result : Except E (Option A)
  calls : ℕ
  sleeps : List ℚ
deriving Repr

/-- The while loop of retry_sync: fuel is max_attempts minus the current
    attempt counter; the wrapped callable is modelled as a function from the
    attempt index to that invocation outcome.  A failure on the last allowed
    attempt is re-raised; earlier failures sleep current_delay and retry
    with current_delay * backoff. -/
def retryAux {E A : Type} (f : ℕ → Except E A) (backoff : ℚ) :
    ℕ → ℚ → ℕ → RetryResult E A
  | _attempt, _current_delay, 0 => { result := .ok none, calls := 0, sleeps := [] }
  | attempt, current_delay, fuel + 1 =>
    match f attempt with
    | .ok a => { result := .ok (some a), calls := 1, sleeps := [] }
    | .error e =>
      if fuel = 0 then { result := .error e, calls := 1, sleeps := [] }
      else
        let rest := retryAux f backoff (attempt + 1) (current_delay * backoff) fuel
        { result := rest.result, calls := rest.calls + 1
          sleeps := current_delay :: rest.sleeps }

/-- retry_sync(max_attempts, delay, backoff) applied to a callable. -/
def retry_sync {E A : Type} (max_attempts : ℕ) (delay backoff : ℚ)
    (f : ℕ → Except E A) : RetryResult E A :=
  retryAux f backoff 0 delay max_attempts

/-! Exchange-client wrapper, from src/core/client.py. -/

/-- The try/except part of PolymarketClient.create_order for one attempt,
    paired with whether the local trade_id was assigned on that path.  An
    invalid side raises ValueError inside the try block, which the blanket
    except clause turns into a None return (logged at error level); an
    out-of-range price or a too-small size returns None directly with a
    warning.  trade_id is assigned only after all three validations pass;
    on that path the exchange call either yields the order or its exception
    is caught and None is returned. -/
def create_order_try {O : Type} (side : String) (price size : ℚ)
    (exchange : Except String O) : Option O × Bool :=
  if ¬ (side = "BUY" ∨ side = "SELL") then (none, false)
  else if price < 1 / 100 ∨ price > 99 / 100 then (none, false)
  else if size < 1 then (none, false)
  else
    match exchange with
    | .ok o => (some o, true)
    | .error _ => (none, true)

/-- One attempt of create_order including its finally clause: the finally
    clause evaluates trade_id, and when trade_id was never assigned this
    raises UnboundLocalError, which replaces the value being returned. -/
def create_order_once {O : Type} (side : String) (price size : ℚ)
    (exchange : Except String O) : Except String (Option O) :=
  match create_order_try side price size exchange with
  | (v, true) => .ok v
  | (_, false) => .error "UnboundLocalError"

/-- The decorated create_order: the retry wrapper with max_attempts 3,
    delay 1.0 and the default backoff 2.0 around create_order_once; the
    exchange call outcome may differ per attempt. -/
def create_order {O : Type} (side : String) (price size : ℚ)
    (exchange : ℕ → Except String O) : RetryResult String (Option O) :=
  retry_sync 3 1 2 (fun i => create_order_once side price size (exchange i))

/-! Stream reconnect backoff, from src/core/websocket.py. -/

/-- Initial reconnect_delay. -/
def ws_initial_delay : ℕ := 1

/-- max_reconnect_delay. -/
def ws_max_delay : ℕ := 60

/-- One iteration of the connect loop, seen from the reconnect_delay state:
    either the connection attempt fails or the open connection closes
    (fail), or the connection is established and the subscriptions are sent
    (success). -/
inductive WsEvent
  | fail
  | success
deriving DecidableEq, Repr

/-- Run of the connect loop over a sequence of connection events, returning
    the final reconnect_delay and the list of sleeps performed, in order.
    On fail, _reconnect_with_backoff sleeps the current delay and then sets
    it to min(delay * 2, 60); on success the delay is reset to 1. -/
def ws_run : ℕ → List WsEvent → ℕ × List ℕ
  | d, [] => (d, [])
  | d, WsEvent.fail :: rest =>
    let r := ws_run (min (d * 2) ws_max_delay) rest
    (r.1, d :: r.2)
  | _d, WsEvent.success :: rest => ws_run ws_initial_delay rest

/-- The reconnect_delay value after n consecutive failures from a fresh
    connection. -/
def ws_delay_iter : ℕ → ℕ
  | 0 => ws_initial_delay
  | n + 1 => min (ws_delay_iter n * 2) ws_max_delay

/-! Concrete data of scenario S5 of the specification: one market M with
    tokens A and B, local sizes 50 and 30, on-chain base-unit amounts
    50000000 and 30000000, exchange merge succeeding. -/

def s5_markets : List Market := [{ condition_id := "M", token1 := "A", token2 := "B" }]

def s5_positions : Positions := fun t =>
  if t = "A" then { size := 50, avgPrice := 1 / 2 }
  else if t = "B" then { size := 30, avgPrice := 3 / 5 }
  else { size := 0, avgPrice := 0 }

def s5_env : MergeEnv :=
  { hasClient := true
    onchain := fun t =>
      if t = "A" then some 50000000 else if t = "B" then some 30000000 else none
    mergeOk := true }

/-! Theorems. -/

/-- C10: for every bid_sum and every min_ratio, a zero ask-side depth makes
    check_order_book_ratio return true: the gate passes rather than treating
    the ratio as 0 and failing. -/
theorem c10_zero_ask_depth_passes (bid_sum min_ratio : ℚ) :
    check_order_book_ratio bid_sum 0 min_ratio = true := by
  simp [check_order_book_ratio]

/-- C7: for non-negative positions, calculate_order_size returns
    sell = myPos, and buy = max(0, maxSize - myPos) exactly when
    myPos < maxSize, otherPos < minSize and that quantity is at least
    minSize, with buy = 0 in every other case (the knobs being read with
    their dictionary defaults: trade_size 100, max_size defaulting to
    trade_size, min_size 10). -/
theorem c7_order_sizing (position other_position : ℚ) (market : SizeKnobs)
    (hpos : 0 ≤ position) (_hother : 0 ≤ other_position) :
    (calculate_order_size position other_position market).2 = position ∧
    (calculate_order_size position other_position market).1 =
      (if position < market.max_size.getD (market.trade_size.getD 100) ∧
          other_position < market.min_size.getD 10 ∧
          market.min_size.getD 10 ≤
            max 0 (market.max_size.getD (market.trade_size.getD 100) - position)
        then max 0 (market.max_size.getD (market.trade_size.getD 100) - position)
        else 0) := by
  constructor
  · simp only [calculate_order_size]
    split_ifs with h
    · rfl
    · push_neg at h
      linarith
  · simp only [calculate_order_size]
    by_cases hA : position < market.max_size.getD (market.trade_size.getD 100) ∧
        other_position < market.min_size.getD 10
    · by_cases hB : max 0 (market.max_size.getD (market.trade_size.getD 100) - position) <
          market.min_size.getD 10
      · rw [if_pos hA, if_pos hB, if_neg (fun hc => (not_le.mpr hB) hc.2.2)]
      · rw [if_pos hA, if_neg hB, if_pos ⟨hA.1, hA.2, not_lt.mp hB⟩]
    · rw [if_neg hA, if_neg (fun hc => hA ⟨hc.1, hc.2.1⟩)]

/-- Witness for C7 at myPos = 0, otherPos = 0, maxSize = 100, minSize = 10:
    the sell amount is the position. -/
theorem c7_order_sizing_witness :
    (calculate_order_size 0 0 ⟨none, some 100, some 10⟩).2 = 0 :=
  (c7_order_sizing 0 0 ⟨none, some 100, some 10⟩ (by norm_num) (by norm_num)).1

/-- C4 (amended): should_update_order returns false if and only if an order
    for (token, side) is present (non-zero tracked size), the price moved by
    at most 0.005, and either the new size is not positive or the size moved
    by at most 10 percent of the new size.  For a positive new size this is
    exactly the claimed condition; for newSize less than or equal to 0 the
    size test is skipped. -/
theorem c4_should_update_amended (orders : TokenOrders) (side : OrderSide)
    (new_price new_size : ℚ) :
    should_update_order orders side new_price new_size = false ↔
      ((get_side orders side).size ≠ 0 ∧
       |(get_side orders side).price - new_price| ≤ min_price_diff ∧
       (new_size ≤ 0 ∨
         |(get_side orders side).size - new_size| ≤ new_size * min_size_diff_pct)) := by
  simp only [should_update_order]
  split_ifs with h1 h2 h3
  · simp [h1]
  · simp only [Bool.true_eq_false, false_iff]
    rintro ⟨-, hle, -⟩
    exact absurd hle (not_le.mpr h2)
  · simp only [Bool.true_eq_false, false_iff]
    rintro ⟨-, -, hsz⟩
    rcases hsz with hle | hle
    · exact absurd h3.1 (not_lt.mpr hle)
    · exact absurd hle (not_le.mpr h3.2)
  · simp only [eq_self_iff_true, true_iff]
    push_neg at h3
    refine ⟨h1, not_lt.mp h2, ?_⟩
    by_cases hpos : new_size > 0
    · exact Or.inr (h3 hpos)
    · exact Or.inl (not_lt.mp hpos)

/-- Counterexample to C4 as stated: with a resting sell order of size 5 at
    price 0.5 and a request (sell, newPrice 0.5, newSize 0), the code
    returns false even though the size difference 5 exceeds ten percent of
    the new size (which is 0), so the claimed equivalence fails. -/
theorem c4_zero_new_size_counterexample :
    should_update_order
      { buy := { size := 0, price := 0 }, sell := { size := 5, price := 1 / 2 } }
      OrderSide.sell (1 / 2) 0 = false ∧
    ¬ (|(5 : ℚ) - 0| ≤ 0 * min_size_diff_pct) := by
  constructor
  · norm_num [should_update_order, get_side, min_price_diff, min_size_diff_pct]
  · rw [show |(5 : ℚ) - 0| = 5 by (rw [abs_of_pos] <;> norm_num)]
    norm_num

/-- C2 (amended): for a position with size > 0 and avg > 0, the stop-loss
    check triggers if and only if pnlPct = (mid - avg) / avg * 100 is below
    stopLossThreshold and the spread quantity the caller passes, namely
    (ask - bid) * 100 (the absolute spread scaled to percentage points, not
    spread / mid * 100), is at most spreadThreshold; any emergency sell the
    triggered path places is at the current best bid (it is placed whenever
    the check triggers and the mid is non-zero). -/
theorem c2_stop_loss_amended (position_size avg_price best_bid best_ask : ℚ)
    (params : RiskParams) (hs : 0 < position_size) (ha : 0 < avg_price) :
    ((check_stop_loss position_size avg_price ((best_bid + best_ask) / 2)
        ((best_ask - best_bid) * 100) params).1 = true ↔
      (((best_bid + best_ask) / 2 - avg_price) / avg_price * 100 <
          params.stop_loss_threshold.getD (-2) ∧
        (best_ask - best_bid) * 100 ≤ params.spread_threshold.getD 3)) ∧
    (∀ q, handle_sell_stop position_size avg_price best_bid best_ask params = some q →
      q = best_bid) ∧
    ((best_bid + best_ask) / 2 ≠ 0 →
      (check_stop_loss position_size avg_price ((best_bid + best_ask) / 2)
        ((best_ask - best_bid) * 100) params).1 = true →
      handle_sell_stop position_size avg_price best_bid best_ask params = some best_bid) := by
  have hns : ¬ (position_size ≤ 0 ∨ avg_price ≤ 0) := by
    push_neg
    exact ⟨hs, ha⟩
  refine ⟨?_, ?_, ?_⟩
  · simp only [check_stop_loss, if_neg hns]
    split_ifs with hc
    · simpa using hc
    · simpa using hc
  · intro q hq
    simp only [handle_sell_stop, if_neg (not_le.mpr ha), check_stop_loss,
      if_neg hns] at hq
    split_ifs at hq with hc
    rcases eq_or_ne ((best_bid + best_ask) / 2) 0 with hm | hm
    · simp [hm] at hq
    · simp [hm] at hq
      exact hq.symm
  · intro hmid htrig
    simp only [check_stop_loss, if_neg hns] at htrig
    simp only [handle_sell_stop, if_neg (not_le.mpr ha), check_stop_loss,
      if_neg hns]
    split_ifs at htrig with hc
    simp [hc, hmid]

/-- Witness for C2 at the stop-loss scenario of the specification: position
    100 at average 0.50, book 0.48 / 0.49, thresholds -2 and 3; the check
    triggers and the emergency sell is placed at the best bid 0.48. -/
theorem c2_stop_loss_witness :
    handle_sell_stop 100 (1 / 2) (12 / 25) (49 / 100)
      ⟨some (-2), some 3⟩ = some (12 / 25) :=
  (c2_stop_loss_amended 100 (1 / 2) (12 / 25) (49 / 100) ⟨some (-2), some 3⟩
      (by norm_num) (by norm_num)).2.2 (by norm_num)
    (by norm_num [check_stop_loss])

/-- Counterexample to C2 as stated: with book bid 0.4, ask 0.5, position 10
    at average 0.5 and thresholds stopLoss -2, spread 15, the code places
    the emergency sell (its spread argument is (ask - bid) * 100 = 10 <= 15)
    even though spreadPct = spread / mid * 100 = 200/9 > 15, so the claimed
    trigger condition using spreadPct = spread / mid * 100 is false. -/
theorem c2_spread_formula_counterexample :
    handle_sell_stop 10 (1 / 2) (2 / 5) (1 / 2) ⟨some (-2), some 15⟩ = some (2 / 5) ∧
    ¬ (calculate_spread_pct (2 / 5) (1 / 2) ≤ 15) := by
  constructor
  · norm_num [handle_sell_stop, check_stop_loss]
  · norm_num [calculate_spread_pct, calculate_mid_price, calculate_spread]
    rw [show |(1 : ℚ) / 10| = 1 / 10 by (rw [abs_of_pos]; norm_num)]
    norm_num

/-- C1: falsified by the code (see the finally clause of create_order).  On
    every input rejected by validation -- here side BUY, price 0.5, size 0.5
    with size < 1.0 -- the finally clause reads the local trade_id, which
    was never assigned on that path, so an UnboundLocalError is raised in
    place of the intended None return; the retry wrapper re-raises it after
    its three attempts, and the exception escapes the call. -/
theorem c1_create_order_exception_escapes :
    create_order_once "BUY" (1 / 2) (1 / 2) (Except.ok (0 : ℕ)) =
      Except.error "UnboundLocalError" ∧
    (create_order "BUY" (1 / 2) (1 / 2) (fun _ => Except.ok (0 : ℕ))).result =
      Except.error "UnboundLocalError" := by
  constructor
  · norm_num [create_order_once, create_order_try]
  · norm_num [create_order, retry_sync, retryAux, create_order_once, create_order_try]

/-- C3: update_position stores, for a trade of non-negative size d at price
    p on a position of size s and average a: on BUY the size s + d and the
    average (s * a + d * p) / (s + d) when s + d > 0 and p otherwise; on
    SELL the size max(0, s - d) with the average kept while the new size is
    positive and reset to 0 once fully closed; the stored size is quantised
    to 2 decimals (rounded down) and the stored average to 4 decimals.  In
    particular, from the zero position, BUY 10 at 0.40 then BUY 5 at 0.50
    yields size 15.00 and average 0.4333. -/
theorem c3_update_position_spec (s a d p : ℚ) (_hd : 0 ≤ d) :
    (update_position { size := s, avgPrice := a } "BUY" d p =
      { size := round_down (s + d) 2
        avgPrice := pyRound (if s + d > 0 then (s * a + d * p) / (s + d) else p) 4 }) ∧
    (update_position { size := s, avgPrice := a } "SELL" d p =
      { size := round_down (max 0 (s - d)) 2
        avgPrice := pyRound (if max 0 (s - d) > 0 then a else 0) 4 }) ∧
    apply_trades initialPositions
        [⟨"T", "BUY", 10, 2 / 5⟩, ⟨"T", "BUY", 5, 1 / 2⟩] "T" =
      { size := 15, avgPrice := 4333 / 10000 } := by
  refine ⟨?_, ?_, ?_⟩
  · simp +decide [update_position]
  · simp +decide [update_position]
  · norm_num +decide [apply_trades, apply_trade, update_position, initialPositions,
      round_down, pyRound, roundHalfEven]

/-- Witness for C3: the BUY equation at the first trade of the scenario. -/
theorem c3_update_position_witness :
    update_position { size := 0, avgPrice := 0 } "BUY" 10 (2 / 5) =
      { size := round_down (0 + 10) 2
        avgPrice := pyRound (if (0 : ℚ) + 10 > 0 then ((0 : ℚ) * 0 + 10 * (2 / 5)) / (0 + 10) else 2 / 5) 4 } :=
  (c3_update_position_spec 0 0 10 (2 / 5) (by norm_num)).1

/-- round_down of a non-negative rational is non-negative. -/
theorem round_down_nonneg (x : ℚ) (d : ℕ) (h : 0 ≤ x) : 0 ≤ round_down x d := by
  apply div_nonneg
  · exact_mod_cast Int.floor_nonneg.mpr (by positivity)
  · positivity

/-- roundHalfEven of a non-negative rational is non-negative. -/
theorem roundHalfEven_nonneg (x : ℚ) (h : 0 ≤ x) : 0 ≤ roundHalfEven x := by
  have hf : 0 ≤ ⌊x⌋ := Int.floor_nonneg.mpr h
  unfold roundHalfEven
  split_ifs <;> omega

/-- pyRound of a non-negative rational is non-negative. -/
theorem pyRound_nonneg (x : ℚ) (d : ℕ) (h : 0 ≤ x) : 0 ≤ pyRound x d := by
  apply div_nonneg
  · exact_mod_cast roundHalfEven_nonneg _ (by positivity)
  · positivity

/-- update_position keeps size and average price non-negative whenever the
    incoming position and the trade size and price are non-negative. -/
theorem update_position_nonneg (pos : Position) (side : String) (size price : ℚ)
    (hs : 0 ≤ pos.size) (ha : 0 ≤ pos.avgPrice) (hd : 0 ≤ size) (hp : 0 ≤ price) :
    0 ≤ (update_position pos side size price).size ∧
    0 ≤ (update_position pos side size price).avgPrice := by
  unfold update_position
  split_ifs with hside hpos hpos
  · exact ⟨round_down_nonneg _ _ (by linarith),
      pyRound_nonneg _ _ (div_nonneg (by positivity) (by linarith))⟩
  · exact ⟨round_down_nonneg _ _ (by linarith), pyRound_nonneg _ _ hp⟩
  · exact ⟨round_down_nonneg _ _ (le_max_left _ _), pyRound_nonneg _ _ ha⟩
  · exact ⟨round_down_nonneg _ _ (le_max_left _ _), pyRound_nonneg _ _ le_rfl⟩

/-- The non-negativity invariant is preserved by any trade sequence with
    non-negative sizes and prices. -/
theorem apply_trades_nonneg (ts : List TradeEvent) (ps : Positions)
    (hts : ∀ t ∈ ts, 0 ≤ t.size ∧ 0 ≤ t.price)
    (hps : ∀ tok, 0 ≤ (ps tok).size ∧ 0 ≤ (ps tok).avgPrice) :
    ∀ tok, 0 ≤ (apply_trades ps ts tok).size ∧ 0 ≤ (apply_trades ps ts tok).avgPrice := by
  induction ts generalizing ps with
  | nil => exact hps
  | cons t ts ih =>
    refine ih (apply_trade ps t) (fun u hu => hts u (List.mem_cons_of_mem _ hu)) ?_
    intro tok
    unfold apply_trade
    split_ifs with htok
    · obtain ⟨h1, h2⟩ := hts t (List.mem_cons_self _ _)
      exact update_position_nonneg _ _ _ _ (hps t.token).1 (hps t.token).2 h1 h2
    · exact hps tok

/-- C6 (amended): after any sequence of update_position calls with
    non-negative size and price arguments, every stored position satisfies
    size at least 0 and avgPrice at least 0.  The equivalence avgPrice = 0
    iff size = 0 claimed in addition does not hold of the code (see the
    counterexample: a BUY at price 0 leaves a positive size with a zero
    average). -/
theorem c6_position_invariant_amended (ts : List TradeEvent)
    (hts : ∀ t ∈ ts, 0 ≤ t.size ∧ 0 ≤ t.price) (tok : String) :
    0 ≤ (apply_trades initialPositions ts tok).size ∧
    0 ≤ (apply_trades initialPositions ts tok).avgPrice :=
  apply_trades_nonneg ts initialPositions hts
    (fun _ => by simp [initialPositions]) tok

/-- Witness for C6 on a one-trade sequence with non-negative arguments. -/
theorem c6_position_invariant_witness :
    0 ≤ (apply_trades initialPositions [⟨"A", "BUY", 10, 2 / 5⟩] "A").size ∧
    0 ≤ (apply_trades initialPositions [⟨"A", "BUY", 10, 2 / 5⟩] "A").avgPrice :=
  c6_position_invariant_amended [⟨"A", "BUY", 10, 2 / 5⟩]
    (by intro t ht; simp at ht; subst ht; norm_num) "A"

/-- Counterexample to C6 as stated: the single update BUY 10 at price 0
    (both arguments non-negative) yields a stored position with
    avgPrice = 0 but size = 10, so avgPrice = 0 does not imply size = 0. -/
theorem c6_zero_price_counterexample :
    (apply_trades initialPositions [⟨"A", "BUY", 10, 0⟩] "A").avgPrice = 0 ∧
    (apply_trades initialPositions [⟨"A", "BUY", 10, 0⟩] "A").size ≠ 0 := by
  norm_num +decide [apply_trades, apply_trade, update_position, initialPositions,
    round_down, pyRound, roundHalfEven]

/-- C5: merge_positions aborts with the position state unchanged when the
    local candidate is absent or when the re-fetched on-chain amount
    min(p1, p2) is below MIN_MERGE_SIZE in base units; on a successful
    exchange merge it applies exactly two SELL updates of amount/1e6 at
    price 0.  On the S5 scenario (local sizes 50 and 30, on-chain 50000000
    and 30000000) the merge call amount is 30000000 and the post-state is
    token A size 20 (average unchanged) and token B size 0, average 0. -/
theorem c5_merge_positions_spec :
    (∀ (env : MergeEnv) (ps : Positions) (markets : List Market) (market_id : String),
      check_merge_opportunities ps markets market_id = none →
        merge_positions env ps markets market_id = ⟨false, none, ps⟩) ∧
    (∀ (env : MergeEnv) (ps : Positions) (markets : List Market) (market_id : String)
        (t1 t2 : String) (amt p1 p2 : ℚ),
      check_merge_opportunities ps markets market_id = some (t1, t2, amt) →
      env.onchain t1 = some p1 → env.onchain t2 = some p2 →
      min p1 p2 < MIN_MERGE_SIZE * 1000000 →
        merge_positions env ps markets market_id = ⟨false, none, ps⟩) ∧
    (∀ (env : MergeEnv) (ps : Positions) (markets : List Market) (market_id : String)
        (t1 t2 : String) (amt p1 p2 : ℚ),
      check_merge_opportunities ps markets market_id = some (t1, t2, amt) →
      env.hasClient = true →
      env.onchain t1 = some p1 → env.onchain t2 = some p2 →
      ¬ (min p1 p2 < MIN_MERGE_SIZE * 1000000) →
      env.mergeOk = true →
        merge_positions env ps markets market_id =
          ⟨true, some (min p1 p2),
            apply_trade (apply_trade ps ⟨t1, "SELL", min p1 p2 / 1000000, 0⟩)
              ⟨t2, "SELL", min p1 p2 / 1000000, 0⟩⟩) ∧
    ((merge_positions s5_env s5_positions s5_markets "M").success = true ∧
      (merge_positions s5_env s5_positions s5_markets "M").callAmount = some 30000000 ∧
      (merge_positions s5_env s5_positions s5_markets "M").positions "A" =
        { size := 20, avgPrice := 1 / 2 } ∧
      (merge_positions s5_env s5_positions s5_markets "M").positions "B" =
        { size := 0, avgPrice := 0 }) := by
  refine ⟨?_, ?_, ?_, ?_⟩
  · intro env ps markets market_id h
    simp [merge_positions, h]
  · intro env ps markets market_id t1 t2 amt p1 p2 hc h1 h2 hlt
    rcases henv : env.hasClient with _ | _
    · simp [merge_positions, hc, henv]
    · simp [merge_positions, hc, henv, h1, h2, hlt]
  · intro env ps markets market_id t1 t2 amt p1 p2 hc hcl h1 h2 hge hok
    simp [merge_positions, hc, hcl, h1, h2, hge, hok]
  · norm_num +decide [merge_positions, check_merge_opportunities, find_market,
      s5_env, s5_positions, s5_markets, MIN_MERGE_SIZE, apply_trade,
      update_position, round_down, pyRound, roundHalfEven, List.find?]

/-- Witness for C5: the abort case applied to the empty market list, where
    no local candidate exists. -/
theorem c5_merge_positions_witness :
    merge_positions s5_env s5_positions [] "M" = ⟨false, none, s5_positions⟩ :=
  c5_merge_positions_spec.1 s5_env s5_positions [] "M"
    (by norm_num [check_merge_opportunities, find_market, List.find?])

/-- Prepending the first-retry sleep d to the geometric sleeps starting at
    d * b gives the geometric sleeps starting at d. -/
theorem geom_sleeps_cons (d b : ℚ) (m : ℕ) :
    d :: (List.range m).map (fun k => d * b * b ^ k) =
      (List.range (m + 1)).map (fun k => d * b ^ k) := by
  rw [List.range_succ_eq_map, List.map_cons, List.map_map]
  congr 1
  · simp
  · congr 1
    funext k
    simp [Function.comp, pow_succ]
    ring

/-- Behaviour of the retry loop, by induction on the remaining attempts:
    at least one and at most fuel invocations are made, the sleeps are the
    geometric sequence current_delay * backoff ^ k for k from 0, and an
    error result means every allowed attempt ran and the error is exactly
    the failure of the last invocation. -/
theorem retryAux_spec {E A : Type} (f : ℕ → Except E A) (backoff : ℚ) :
    ∀ (fuel attempt : ℕ) (d : ℚ), 1 ≤ fuel →
      1 ≤ (retryAux f backoff attempt d fuel).calls ∧
      (retryAux f backoff attempt d fuel).calls ≤ fuel ∧
      (retryAux f backoff attempt d fuel).sleeps =
        (List.range ((retryAux f backoff attempt d fuel).calls - 1)).map
          (fun k => d * backoff ^ k) ∧
      ∀ e, (retryAux f backoff attempt d fuel).result = Except.error e →
        (retryAux f backoff attempt d fuel).calls = fuel ∧
        f (attempt + (fuel - 1)) = Except.error e := by
  intro fuel
  induction fuel with
  | zero => intro _ _ h; omega
  | succ n ih =>
    intro attempt d _
    cases hf : f attempt with
    | ok a => simp [retryAux, hf]
    | error e =>
      by_cases hn : n = 0
      · subst hn
        simp [retryAux, hf]
      · have hn1 : 1 ≤ n := Nat.one_le_iff_ne_zero.mpr hn
        obtain ⟨ih1, ih2, ih3, ih4⟩ := ih (attempt + 1) (d * backoff) hn1
        simp only [retryAux, hf, if_neg hn]
        refine ⟨by omega, by omega, ?_, ?_⟩
        · rw [ih3]
          rw [Nat.add_sub_cancel]
          obtain ⟨m, hm⟩ := Nat.exists_eq_add_of_le ih1
          rw [hm]
          rw [show 1 + m - 1 = m by omega, show 1 + m = m + 1 by omega]
          exact geom_sleeps_cons d backoff m
        · intro e2 he2
          obtain ⟨hcalls, hlast⟩ := ih4 e2 he2
          constructor
          · omega
          · rw [show attempt + (n + 1 - 1) = attempt + 1 + (n - 1) by omega]
            exact hlast

/-- C9: the retry wrapper invokes the wrapped callable at most max_attempts
    times, sleeps delay * backoff ^ k between failed attempts with k
    starting at 0 and increasing by one per retry, and when it fails it
    re-raises exactly the exception of the last invocation. -/
theorem c9_retry_contract {E A : Type} (f : ℕ → Except E A)
    (max_attempts : ℕ) (delay backoff : ℚ) (h : 1 ≤ max_attempts) :
    (retry_sync max_attempts delay backoff f).calls ≤ max_attempts ∧
    (retry_sync max_attempts delay backoff f).sleeps =
      (List.range ((retry_sync max_attempts delay backoff f).calls - 1)).map
        (fun k => delay * backoff ^ k) ∧
    ∀ e, (retry_sync max_attempts delay backoff f).result = Except.error e →
      (retry_sync max_attempts delay backoff f).calls = max_attempts ∧
      f (max_attempts - 1) = Except.error e := by
  obtain ⟨_, h2, h3, h4⟩ := retryAux_spec f backoff max_attempts 0 delay h
  refine ⟨h2, h3, ?_⟩
  intro e he
  obtain ⟨hc, hl⟩ := h4 e he
  exact ⟨hc, by simpa using hl⟩

/-- Witness for C9: a callable failing on every attempt, wrapped with
    max_attempts 3, delay 1, backoff 2. -/
theorem c9_retry_contract_witness :
    (retry_sync 3 1 2 (fun i => (Except.error i : Except ℕ ℕ))).calls ≤ 3 :=
  (c9_retry_contract (fun i => (Except.error i : Except ℕ ℕ)) 3 1 2 (by norm_num)).1

/-- Closed form for the reconnect delay after n consecutive failures. -/
theorem ws_delay_iter_eq (n : ℕ) : ws_delay_iter n = min (2 ^ n) ws_max_delay := by
  induction n with
  | zero => simp [ws_delay_iter, ws_initial_delay, ws_max_delay]
  | succ n ih =>
    rw [ws_delay_iter, ih, pow_succ]
    simp only [ws_max_delay]
    omega

/-- The sleeps of a run of n consecutive failures, starting after m prior
    consecutive failures, are the next n values of the delay sequence. -/
theorem ws_run_replicate (n : ℕ) :
    ∀ m, (ws_run (ws_delay_iter m) (List.replicate n WsEvent.fail)).2 =
      (List.range n).map (fun k => ws_delay_iter (m + k)) := by
  induction n with
  | zero => intro m; simp [ws_run]
  | succ n ih =>
    intro m
    rw [List.replicate_succ]
    show (ws_delay_iter m) ::
        (ws_run (min (ws_delay_iter m * 2) ws_max_delay) (List.replicate n WsEvent.fail)).2 =
      (List.range (n + 1)).map (fun k => ws_delay_iter (m + k))
    rw [show min (ws_delay_iter m * 2) ws_max_delay = ws_delay_iter (m + 1) from rfl, ih]
    rw [List.range_succ_eq_map, List.map_cons, List.map_map]
    congr 1
    congr 1
    funext k
    simp only [Function.comp]
    congr 1
    omega

/-- C8 (amended): starting from a fresh connection, the delay slept after
    the nth consecutive failed or closed connection attempt is
    min(2 ^ (n - 1), 60) seconds -- the sleeps for n failures are
    min(2^0,60), ..., min(2^(n-1),60) -- and the delay is reset to 1 second
    on a successful connection (once the subscriptions are sent, before the
    first message is received). -/
theorem c8_reconnect_backoff_amended (n : ℕ) (h : 1 ≤ n) :
    ((ws_run ws_initial_delay (List.replicate n WsEvent.fail)).2 =
      (List.range n).map (fun k => min (2 ^ k) ws_max_delay)) ∧
    (((ws_run ws_initial_delay (List.replicate n WsEvent.fail)).2).getLast? =
      some (min (2 ^ (n - 1)) ws_max_delay)) ∧
    (∀ (d : ℕ) (rest : List WsEvent),
      ws_run d (WsEvent.success :: rest) = ws_run 1 rest) := by
  have hrun : (ws_run ws_initial_delay (List.replicate n WsEvent.fail)).2 =
      (List.range n).map (fun k => min (2 ^ k) ws_max_delay) := by
    have h0 := ws_run_replicate n 0
    rw [show ws_delay_iter 0 = ws_initial_delay from rfl] at h0
    rw [h0]
    congr 1
    funext k
    rw [Nat.zero_add, ws_delay_iter_eq]
  refine ⟨hrun, ?_, ?_⟩
  · obtain ⟨m, rfl⟩ := Nat.exists_eq_add_of_le h
    rw [hrun, show 1 + m = m + 1 by omega, List.range_succ, List.map_append]
    simp
  · intro d rest
    rfl

/-- Witness for C8 at n = 4, the backoff scenario of the specification:
    four consecutive failures sleep 1, 2, 4 and 8 seconds. -/
theorem c8_reconnect_backoff_witness :
    (ws_run ws_initial_delay (List.replicate 4 WsEvent.fail)).2 =
      (List.range 4).map (fun k => min (2 ^ k) ws_max_delay) :=
  (c8_reconnect_backoff_amended 4 (by norm_num)).1

/-- Counterexample to C8 as stated: the sleep performed after the first
    failed attempt is 1 second, not min(2 ^ 1, 60) = 2 seconds. -/
theorem c8_first_sleep_counterexample :
    (ws_run ws_initial_delay [WsEvent.fail]).2 = [1] ∧
    (1 : ℕ) ≠ min (2 ^ 1) ws_max_delay := by
  constructor
  · simp [ws_run, ws_initial_delay, ws_max_delay]
  · decide

